import Mathlib

/-!
Shallow embedding of the Survey-generator repository (src/app.py, src/main.py)
and proofs about its specified behaviour.

The repository has two Python variants:
* `src/main.py` — a FastAPI endpoint (`generate_survey`) with a per-stage
  strategy table (`get_stage_focus`) and prompt builder
  (`build_stage_specific_survey_prompt`);
* `src/app.py` — a Streamlit app with a guardrail catalog
  (`IDEATION_GUARDRAILS`, `PROTOTYPE_GUARDRAILS`, `get_guardrails_for_stage`)
  and prompt builder (`build_guardrail_based_prompt`).

Python strings are modelled as Lean `String`, Python lists as `List`,
Python dicts used as ordered records as Lean structures, and the stage-keyed
dicts as association lists in source insertion order.  The external
model call (`query_claude`) is passed in as a function argument, and the
standard-library `json.loads` is modelled by an executable recursive-descent
parser `json_loads` below.
-/

/-- Characters stripped by the Python `str.strip()` with no argument
(ASCII whitespace; this covers every character the prompt templates place at
their ends). -/
def pyIsSpace (c : Char) : Bool :=
  c = ' ' || c = '\t' || c = '\n' || c = '\r' || c = '\x0b' || c = '\x0c'

/-- Left part of the Python `str.strip()`: drop leading whitespace. -/
def pyLStrip (s : String) : String :=
  ⟨s.data.dropWhile pyIsSpace⟩

/-- Right part of the Python `str.strip()`: drop trailing whitespace. -/
def pyRStrip (s : String) : String :=
  ⟨(s.data.reverse.dropWhile pyIsSpace).reverse⟩

/-- The Python `str.strip()`. -/
def pyStrip (s : String) : String :=
  pyRStrip (pyLStrip s)

/-- The Python `sep.join(parts)`. -/
def pyJoin (sep : String) : List String → String
  | [] => ""
  | [x] => x
  | x :: xs => x ++ sep ++ pyJoin sep xs

/-- Substring containment: `needle` occurs contiguously inside `hay`
(the Python `needle in hay`). -/
def strContains (hay needle : String) : Prop :=
  needle.data <:+: hay.data

/-- Tail-recursive prefix test, used to decide `strContains` without deep
recursion on long prompt literals. -/
def listStartsWith : List Char → List Char → Bool
  | [], _ => true
  | _ :: _, [] => false
  | a :: as, b :: bs => a == b && listStartsWith as bs

/-- Scanning substring test, used to decide `strContains`. -/
def listIsSub (needle : List Char) : List Char → Bool
  | [] => needle.isEmpty
  | c :: rest => listStartsWith needle (c :: rest) || listIsSub needle rest

theorem listStartsWith_iff (a b : List Char) : listStartsWith a b = true ↔ a <+: b := by
  induction a generalizing b with
  | nil => simp [listStartsWith]
  | cons x xs ih =>
    cases b with
    | nil => simp [listStartsWith]
    | cons y ys => simp [listStartsWith, List.cons_prefix_cons, ih]

theorem listIsSub_iff (n h : List Char) : listIsSub n h = true ↔ n <:+: h := by
  induction h with
  | nil =>
    cases n with
    | nil => simp [listIsSub]
    | cons x xs => simp [listIsSub, List.isEmpty]
  | cons c rest ih =>
    simp [listIsSub, listStartsWith_iff, ih, List.infix_cons_iff]

instance (hay needle : String) : Decidable (strContains hay needle) :=
  decidable_of_iff (listIsSub needle.data hay.data = true)
    (listIsSub_iff needle.data hay.data)

/-- Boolean substring containment, used in executable scans over decoded
JSON values. -/
def strContainsB (hay needle : String) : Bool :=
  decide (strContains hay needle)

theorem infixOfPre {l1 l2 : List Char} (h : l1 <+: l2) : l1 <:+: l2 := by
  obtain ⟨t, ht⟩ := h
  exact ⟨[], t, by simp [ht]⟩

theorem infixOfSuf {l1 l2 : List Char} (h : l1 <:+ l2) : l1 <:+: l2 := by
  obtain ⟨s, hs⟩ := h
  exact ⟨s, [], by simp [hs]⟩

theorem strContains_append_left {a n : String} (b : String)
    (h : strContains a n) : strContains (a ++ b) n := by
  have : a.data <:+: (a ++ b).data := by
    rw [String.data_append]; exact infixOfPre (List.prefix_append a.data b.data)
  exact h.trans this

theorem strContains_append_right (a : String) {b n : String}
    (h : strContains b n) : strContains (a ++ b) n := by
  have : b.data <:+: (a ++ b).data := by
    rw [String.data_append]; exact infixOfSuf (List.suffix_append a.data b.data)
  exact h.trans this

theorem strContains_refl (s : String) : strContains s s :=
  List.infix_refl s.data

/-- A member of a joined list is contained in the join. -/
theorem strContains_pyJoin (sep : String) (l : List String) (x : String)
    (hx : x ∈ l) : strContains (pyJoin sep l) x := by
  induction l with
  | nil => cases hx
  | cons y ys ih =>
    rw [List.mem_cons] at hx
    cases ys with
    | nil =>
      rcases hx with h | h
      · subst h; exact strContains_refl x
      · cases h
    | cons z zs =>
      simp only [pyJoin]
      rcases hx with h | h
      · subst h
        exact strContains_append_left _ (strContains_append_left _ (strContains_refl x))
      · exact strContains_append_right _ (ih h)

/-!
Data model (src/main.py lines 16-29, src/app.py lines 25-29).

The pydantic `Literal` stage declarations are modelled by validity predicates
`validStageMain` / `validStageApp` over plain strings, since the catalog
functions themselves take raw `str` arguments.
-/

/-- Startup metadata (pydantic `StartupAnalysis`). -/
structure StartupAnalysis where
  title : String
  description : String
  stage : String
  burningProblems : List String
deriving DecidableEq

/-- Request body of the endpoint (pydantic `SurveyRequest`). -/
structure SurveyRequest where
  studyId : String
  surveyPurpose : String
  startupAnalysis : StartupAnalysis
deriving DecidableEq

/-- The closed stage enumeration of src/main.py
(`Literal[...]` on `StartupAnalysis.stage`). -/
def validStageMain (s : String) : Bool :=
  s = "IDEATION & PLANNING" || s = "PROTOTYPE DEVELOPMENT" ||
  s = "VALIDATION & ITERATION" || s = "LAUNCH & SCALING" ||
  s = "GROWTH & OPTIMIZATION"

/-- The closed stage enumeration of src/app.py
(`Literal[...]` on `StartupAnalysis.stage`). -/
def validStageApp (s : String) : Bool :=
  s = "IDEATION & PLANNING" || s = "PROTOTYPE DEVELOPMENT"

/-- Per-stage strategy record (the dict values inside `get_stage_focus`,
src/main.py lines 36-87). -/
structure StageStrategy where
  primary_focus : String
  question_types : List String
  validation_goal : String
deriving DecidableEq

/-- Strategy for "IDEATION & PLANNING" (src/main.py lines 37-46). -/
def ideationPlanningStrategy : StageStrategy where
  primary_focus := "Problem validation and market need confirmation"
  question_types :=
    ["Problem severity and frequency validation",
     "Current solution gaps and pain points",
     "Market size and willingness to pay",
     "Competitive landscape awareness"]
  validation_goal := "Confirm the problems are real and worth solving"

/-- Strategy for "PROTOTYPE DEVELOPMENT" (src/main.py lines 47-56). -/
def prototypeDevelopmentStrategy : StageStrategy where
  primary_focus := "Solution fit and technical feasibility validation"
  question_types :=
    ["Solution approach validation",
     "Feature priority and core functionality",
     "Technical constraints and requirements",
     "User workflow and interaction patterns"]
  validation_goal := "Validate the proposed solution addresses the core problems effectively"

/-- Strategy for "VALIDATION & ITERATION" (src/main.py lines 57-66). -/
def validationIterationStrategy : StageStrategy where
  primary_focus := "Product-market fit and user experience optimization"
  question_types :=
    ["Product satisfaction and recommendation likelihood",
     "Usage patterns and adoption barriers",
     "Feature gaps and improvement priorities",
     "Pricing sensitivity and value perception"]
  validation_goal := "Optimize product-market fit and identify iteration priorities"

/-- Strategy for "LAUNCH & SCALING" (src/main.py lines 67-76). -/
def launchScalingStrategy : StageStrategy where
  primary_focus := "Go-to-market validation and scaling readiness"
  question_types :=
    ["Market positioning and messaging effectiveness",
     "Distribution channel preferences",
     "Scaling bottlenecks and operational challenges",
     "Customer acquisition and retention factors"]
  validation_goal := "Validate go-to-market strategy and identify scaling challenges"

/-- Strategy for "GROWTH & OPTIMIZATION" (src/main.py lines 77-86). -/
def growthOptimizationStrategy : StageStrategy where
  primary_focus := "Growth levers and market expansion opportunities"
  question_types :=
    ["Growth constraint identification",
     "Market expansion and new use case validation",
     "Customer lifetime value optimization",
     "Competitive differentiation and moat building"]
  validation_goal := "Identify growth opportunities and optimize market position"

/-- The `stage_strategies` dict of `get_stage_focus`, in source insertion
order (src/main.py lines 36-87). -/
def stage_strategies : List (String × StageStrategy) :=
  [("IDEATION & PLANNING", ideationPlanningStrategy),
   ("PROTOTYPE DEVELOPMENT", prototypeDevelopmentStrategy),
   ("VALIDATION & ITERATION", validationIterationStrategy),
   ("LAUNCH & SCALING", launchScalingStrategy),
   ("GROWTH & OPTIMIZATION", growthOptimizationStrategy)]

/-- Stage-strategy lookup: `stage_strategies.get(stage,
stage_strategies["IDEATION & PLANNING"])` (src/main.py line 88). -/
def get_stage_focus (stage : String) : StageStrategy :=
  (stage_strategies.lookup stage).getD ideationPlanningStrategy

/-- A guardrail category entry: the dict value in the guardrail tables of
src/app.py (description plus example questions). -/
structure Guardrail where
  description : String
  example_questions : List String
deriving DecidableEq

/-- The `IDEATION_GUARDRAILS` table of src/app.py (lines 34-139), in source
insertion order. -/
def IDEATION_GUARDRAILS : List (String × Guardrail) :=
  [("PROBLEM RELEVANCE",
    { description := "Checks whether the target user faces the problem the product solves. Helps reveal frequency & intensity of the problem.",
      example_questions :=
       ["How often do you face [the problem] in your daily or professional life?",
        "On a scale of 1–10, how disruptive is [this problem] to your goals or tasks?",
        "What\x27s the most frustrating part of dealing with [insert problem domain] in your daily routine?",
        "On a scale of 1–5, how important is solving this problem for you right now?",
        "If you had a magic wand, which problem would you fix first? [Option A: Problem the startup solves] [Option B: Another major problem] [Option C: None]",
        "How often does this problem interrupt or slow down your work/life? (1 = Never, 5 = Constantly)",
        "What have you done in the past to try to fix or avoid this problem?",
        "Have you ever wished there was a better solution for this issue? Yes/No?"] }),
   ("PROBLEM AWARENESS",
    { description := "Measures if users know they have this problem. Distinguishes latent vs obvious problems.",
      example_questions :=
       ["Have you ever actively tried to solve [this problem]?",
        "Before hearing about this solution, how aware were you of [this problem] being an issue for you?",
        "How clearly do you understand the nature of this problem in your own context? (1 = I\x27ve never thought about it, 5 = I think about it all the time)",
        "When did you first become aware that this was a problem?",
        "Do you think most people in your role even recognize this as a problem? Yes/No",
        "How much do you feel this issue affects people like you? (1 = Very little, 5 = Very significantly)",
        "How would you describe your awareness of this problem? [I\x27m very aware] [I\x27ve seen it happen but don\x27t think about it] [I didn\x27t realize it was a real issue until now] [I\x27m not sure it exists]",
        "Can you describe a moment or example when this problem stood out to you?"] }),
   ("CURRENT SOLUTIONS",
    { description := "Understand what users currently use to solve the problem. Reveals competition and workarounds.",
      example_questions :=
       ["What tools or methods do you currently use to deal with [this problem]?",
        "How satisfied are you with your current way of handling [this problem]?",
        "How are you currently solving this problem today?",
        "What do you currently use? [Excel/Manual methods] [Known competitor] [Internal workaround] [I don\x27t solve it — I tolerate it]",
        "How satisfied are you with your current solution? (1 = Not at all, 5 = Very satisfied)",
        "What\x27s the biggest limitation of your current approach?",
        "Have you ever considered switching to another solution? Yes/No",
        "If something better came along, how likely are you to switch? (1 = Not likely, 5 = Immediately)"] }),
   ("WILLINGNESS TO PAY",
    { description := "Measures if users value the solution enough to pay or switch. Gauges monetization potential.",
      example_questions :=
       ["If a solution solved this problem completely, would you be willing to pay for it?",
        "What is the maximum you\x27d consider paying for a solution that addresses this need well?",
        "If a solution truly solved this for you, how much would you pay per month for it? (1 = Nothing, 5 = Premium pricing if it works)",
        "What kind of pricing would feel fair to you for solving this?",
        "Have you paid for any similar tools or services before? Yes/No",
        "Which pricing model would you prefer? [Monthly Subscription] [One-time Payment] [Pay-per-use] [Freemium]",
        "How confident are you that you\x27d pay for a working solution today? (1 = Not at all, 5 = Very confident)",
        "What would stop you from paying for a solution like this?"] }),
   ("TARGET USER FIT",
    { description := "Confirms if the respondent matches the intended persona. Ensures relevance of data.",
      example_questions :=
       ["Which best describes your role when encountering [this problem]?",
        "Have you experienced [this problem] in your personal or professional context?",
        "What best describes your role, background, or daily work/life context?",
        "Which of these applies to you? [Student] [Professional] [Founder] [Other: _______]",
        "How closely do you feel this solution is built for someone like you? (1 = Not at all, 5 = Exactly like me)",
        "Do you regularly face the kind of situations this solution addresses? Yes/No",
        "Who else do you know that faces this same problem?",
        "How many people in your circle would also relate to this issue? [Just me] [A few people] [A lot of people I know]"] }),
   ("OUTCOME EXPECTATION",
    { description := "Understand the result users hope to achieve. Clarifies value proposition.",
      example_questions :=
       ["What would success look like if a product solved this problem for you?",
        "What is the most important result you\x27d expect from using a product like this?",
        "If this problem was magically solved for you, what would your life/work look like afterward?",
        "How much impact would a working solution make for you? (1 = Minimal, 5 = Game-changing)",
        "What does success look like for you when using a solution to this problem?",
        "What kind of result do you care about most? [Saving time] [Reducing stress] [Saving money] [Improving performance] [Other: ______]",
        "How confident are you that a new product could deliver the outcome you want? (1 = Not at all, 5 = Very confident)",
        "Have you ever tried a tool that failed to meet your expectations? What was missing?"] }),
   ("DEMOGRAPHIC FIT",
    { description := "Captures job, location, age, behavior, etc. Useful for segmentation.",
      example_questions :=
       ["What is your age group, job role, or industry (if relevant to this context)?",
        "Which category best describes your current situation as it relates to [this product/problem]?",
        "Which of these best describes your role or occupation? [Student] [Working professional] [Entrepreneur] [Freelancer] [Other: ______]",
        "Which city and country are you based in?",
        "How experienced are you in [problem area]? (1 = Newbie, 5 = Very experienced)",
        "What is your age range? [Under 18] [18–24] [25–34] [35–44] [45+]",
        "Do you consider yourself tech-savvy? Yes/No",
        "Briefly describe your work/study background (e.g., design, tech, healthcare, education)."] }),
   ("MARKET TIMING SENSITIVITY",
    { description := "Whether users feel this is the right time for the solution. Signals market readiness.",
      example_questions :=
       ["Is solving this problem a priority for you this month/quarter/year?",
        "If this product were available today, how soon would you consider trying it?",
        "How urgent is this problem for you right now? (1 = Can wait, 5 = Needs solving immediately)",
        "Why do you think now is the right time for a solution like this?",
        "If this was available today, how soon would you try it? [Immediately] [Within a week] [Eventually] [Never]",
        "Has something changed recently that made this problem worse? Yes/No",
        "Do you think the timing is right for this solution to succeed in the market? (1 = Too early, 5 = Just right)",
        "What would make now the best time to bring this idea to life?"] })]

/-- The `PROTOTYPE_GUARDRAILS` table of src/app.py (lines 141-246), in source
insertion order. -/
def PROTOTYPE_GUARDRAILS : List (String × Guardrail) :=
  [("WILLINGNESS TO PAY",
    { description := "Measures if users value the solution enough to pay or switch. Gauges monetization potential.",
      example_questions :=
       ["If this product solved your problem well, how likely are you to pay for it? (1 = Not at all, 5 = Definitely)",
        "What would feel like a fair monthly or one-time price for this product?",
        "Have you paid for similar tools or services before? Yes/No",
        "Which pricing model would you prefer? [Monthly subscription] [One-time fee] [Freemium + premium upgrade] [Pay-per-use]",
        "How confident are you that this product is worth paying for? (1 = Not confident, 5 = Absolutely worth it)",
        "What would make you willing to pay more for this product?",
        "If this product improved [key feature], would you consider upgrading to a paid version? Yes/No",
        "How painful would it be to lose access to this tool once you\x27ve used it? (1 = Not at all, 5 = Very painful)"] }),
   ("TARGET USER FIT",
    { description := "Confirms if the respondent matches the intended persona. Ensures relevance of data.",
      example_questions :=
       ["What do you do professionally (or in daily life)?",
        "Does this product feel like it\x27s designed for someone like you? Yes/No",
        "How well does this solution fit your lifestyle/workflow? (1 = Not at all, 5 = Perfect fit)",
        "Which industry best describes your work? [Tech] [Education] [Healthcare] [Finance] [Other]",
        "How often do you face the problem this product solves?",
        "Do you feel like your use case was clearly considered in the prototype? (1 = Not at all, 5 = Definitely)",
        "Would you be willing to join a user feedback or beta testing group for this product? Yes/No",
        "What\x27s the #1 reason this product does or doesn\x27t feel like it\x27s for you?"] }),
   ("FEATURE PRIORITY",
    { description := "Identifies which features matter most to the user. Prioritizes MVP scope.",
      example_questions :=
       ["What\x27s the one feature in this product you would not want to lose?",
        "Which feature do you consider absolutely essential? [Feature A] [Feature B] [Feature C] [None of these]",
        "How useful is [specific feature] to your workflow? (1 = Not useful, 5 = Extremely useful)",
        "Rank these features based on importance to you.",
        "If we removed your favorite feature, would you still use this product? Yes/No",
        "Which feature feels unnecessary or overbuilt right now?",
        "How well does the current feature set solve your problem? (1 = Poorly, 5 = Perfectly)",
        "What feature do you wish we had included in this version?"] }),
   ("FREQUENCY OF USE",
    { description := "How often the product would be used. Estimates stickiness and utility.",
      example_questions :=
       ["How often would you use this tool if it worked perfectly? (1 = Once a year, 5 = Daily)",
        "What type of task would make you return to this product often?",
        "Would this replace any tool or habit you currently use? Yes/No",
        "When would you most likely use this? [Daily task] [Weekly planning] [Monthly project] [Emergency-only]",
        "What would increase your frequency of use?",
        "How much does the product feel like a \"daily tool\" vs. a \"one-off\"? (1 = One-off, 5 = Daily essential)",
        "Would you recommend your team or colleagues use it regularly? Yes/No",
        "What needs to change for this tool to become part of your routine?"] }),
   ("ADOPTION BARRIERS",
    { description := "What might stop the user from trying the product. Uncovers friction or confusion.",
      example_questions :=
       ["What would prevent you from using this product regularly?",
        "What\x27s the biggest barrier to adoption? [I don\x27t understand it] [Trust issues] [Too expensive] [Doesn\x27t solve my problem fully] [No clear need right now]",
        "How easy was the product to understand and get started with? (1 = Very hard, 5 = Super easy)",
        "Did you feel confident using the product on your own? Yes/No",
        "How likely are you to continue using this after the first try? (1 = Not likely, 5 = Very likely)",
        "What additional help (onboarding, demos, videos) would make you adopt this faster?",
        "What was confusing about the product (if anything)? [Interface] [Features] [Terminology] [Nothing was confusing]",
        "What\x27s one thing we can fix to make adoption frictionless?"] }),
   ("OUTCOME EXPECTATION",
    { description := "Understand the result users hope to achieve. Clarifies value proposition.",
      example_questions :=
       ["What was the result you expected from using the prototype?",
        "Did this product deliver the outcome you hoped for? Yes/No",
        "How satisfied were you with the end result? (1 = Not at all, 5 = Extremely)",
        "What did the product not do that you expected it to?",
        "What type of value do you expect most from this tool? [Save time] [Save money] [Reduce effort] [Improve output]",
        "How well did this match your mental model of the ideal solution? (1 = Not close, 5 = Spot on)",
        "If we improved one thing to better match your expectations, what would it be?",
        "Would you say the product is effective enough to solve your problem long-term? Yes/No"] }),
   ("DEMOGRAPHIC FIT",
    { description := "Captures job, location, age, behavior, etc. Useful for segmentation.",
      example_questions :=
       ["What is your age range? [Under 18] [18–24] [25–34] [35–44] [45–54] [55+]",
        "What city and country are you currently based in?",
        "What is your highest level of education? [High school] [Bachelor\x27s degree] [Master\x27s degree] [PhD] [Other]",
        "What is your current profession or area of work/study?",
        "Do you use digital tools or software regularly in your daily routine? Yes/No",
        "How would you describe your tech familiarity? [Beginner] [Intermediate] [Advanced] [Expert]",
        "How often do you face the specific problem this product aims to solve?",
        "How much does this product fit people in your demographic group? (1 = Not at all, 5 = Perfectly)"] }),
   ("REFERRAL LIKELIHOOD",
    { description := "Whether users would tell others about the product. Measures viral potential.",
      example_questions :=
       ["How likely are you to recommend this product to someone else? (1 = Never, 5 = Definitely)",
        "Why would or wouldn\x27t you tell a friend or colleague about this?",
        "Would you share this product on your LinkedIn/Twitter/WhatsApp group? Yes/No",
        "Who in your network would find this most useful? [Coworkers] [Friends] [Students] [Industry peers] [Not sure]",
        "How confident are you in the value this product delivers to others? (1 = Not confident, 5 = Very confident)",
        "What feature or moment made you say \"Wow — others need this\"?",
        "Would you refer this product if you got early access or perks? Yes/No",
        "What would make this product something you\x27re proud to recommend?"] })]

/-- Guardrail-catalog lookup (src/app.py lines 248-254): stages outside the
two catalogued ones yield the empty dict. -/
def get_guardrails_for_stage (stage : String) : List (String × Guardrail) :=
  if stage = "IDEATION & PLANNING" then IDEATION_GUARDRAILS
  else if stage = "PROTOTYPE DEVELOPMENT" then PROTOTYPE_GUARDRAILS
  else []

/-!
Prompt builders.  Each Python f-string is modelled as the concatenation of
its literal segments (named `mainLit…` / `appLit…` below, transcribed
byte-for-byte from the source, using \x7b and \x7d for literal braces) with
the interpolated expressions, in source order.
-/

/-- The comprehension `[f"{i+1}. {x}" for i, x in enumerate(l)]` used by both
prompt builders to number the burning problems from 1. -/
def numberLines (i : Nat) : List String → List String
  | [] => []
  | p :: ps => (toString i ++ ". " ++ p) :: numberLines (i + 1) ps

/-- The `chr(10).join(...)` over the numbered burning problems. -/
def numberedProblems (problems : List String) : String :=
  pyJoin "\n" (numberLines 1 problems)

/-- Literal segment 1 of the src/main.py prompt template (lines 96-143). -/
def mainLit1 : String := "\nYou are an expert product researcher helping a founder run a user survey for a startup in the **"

/-- Literal segment 2 of the src/main.py prompt template. -/
def mainLit2 : String := "** stage.\n\n--- Startup Details ---\nTitle: "

/-- Literal segment 3 of the src/main.py prompt template. -/
def mainLit3 : String := "\nDescription: "

/-- Literal segment 4 of the src/main.py prompt template. -/
def mainLit4 : String := "\nCurrent Stage: "

/-- Literal segment 5 of the src/main.py prompt template. -/
def mainLit5 : String := "\nSurvey Purpose: "

/-- Literal segment 6 of the src/main.py prompt template. -/
def mainLit6 : String := "\n\n--- Critical Burning Problems to Address ---\n"

/-- Literal segment 7 of the src/main.py prompt template. -/
def mainLit7 : String := "\n\n--- Stage-Specific Focus ---\nPrimary Focus: "

/-- Literal segment 8 of the src/main.py prompt template. -/
def mainLit8 : String := "\nValidation Goal: "

/-- Literal segment 9 of the src/main.py prompt template. -/
def mainLit9 : String := "\n\nCRITICAL INSTRUCTIONS:\n- Generate **exactly 10 questions** that are laser-focused on the 3 burning problems above\n- Each question must directly validate assumptions related to these specific problems\n- Tailor questions to the **"

/-- Literal segment 10 of the src/main.py prompt template. -/
def mainLit10 : String := "** stage requirements\n- Focus on: "

/-- Literal segment 11 of the src/main.py prompt template. -/
def mainLit11 : String := "\n\nQuestion Distribution Strategy:\n- 6 questions directly addressing the 3 burning problems (2 questions per burning problem)\n- 2 questions about stage-specific validation needs\n- 1 question about user behavior/workflow \n- 1 question about future priorities/concerns\n\nQuestion Types Based on Stage:\n"

/-- Literal segment 12 of the src/main.py prompt template (the source file
contains the mojibake bytes `â€¢` verbatim in the question-type bullet
comprehension; segment 12 is the template tail). -/
def mainLit12 : String := "\n\nGuidelines:\n- Make questions specific to the burning problems, not generic\n- Use \"scale\" for quantitative validation, \"text\" for qualitative insights\n- Avoid multiple choice questions\n- Each question should test a specific assumption about the burning problems\n\nReturn only a valid JSON array with exactly 10 items, each structured like this:\n[\n  \x7b\n    \"text\": \"...\",\n    \"bucket\": \"burning_problem_1\" | \"burning_problem_2\" | \"burning_problem_3\" | \"stage_validation\" | \"user_behavior\" | \"future_priorities\",\n    \"type\": \"scale\" | \"text\",\n    \"burning_problem_reference\": 1 | 2 | 3 | null\n  \x7d,\n  ...\n]\n"

/-- Enhanced prompt builder of src/main.py (lines 93-145,
`build_stage_specific_survey_prompt`): returns the f-string verbatim (no
strip). -/
def build_stage_specific_survey_prompt (surveyPurpose : String)
    (startupAnalysis : StartupAnalysis) : String :=
  let stage_strategy := get_stage_focus startupAnalysis.stage
  mainLit1 ++ startupAnalysis.stage ++ mainLit2 ++ startupAnalysis.title ++
  mainLit3 ++ startupAnalysis.description ++ mainLit4 ++ startupAnalysis.stage ++
  mainLit5 ++ surveyPurpose ++ mainLit6 ++
  numberedProblems startupAnalysis.burningProblems ++ mainLit7 ++
  stage_strategy.primary_focus ++ mainLit8 ++ stage_strategy.validation_goal ++
  mainLit9 ++ startupAnalysis.stage ++ mainLit10 ++ stage_strategy.primary_focus ++
  mainLit11 ++
  pyJoin "\n" (stage_strategy.question_types.map (fun qtype => "â€¢ " ++ qtype)) ++
  mainLit12

/-- The `"\n    ".join([f"- {q}" for q in ...])` of src/app.py line 265. -/
def guardrail_example_block (g : Guardrail) : String :=
  pyJoin "\n    " (g.example_questions.map (fun q => "- " ++ q))

/-- One guardrail section of the src/app.py prompt (lines 266-270). -/
def guardrail_section (guardrail_name : String) (guardrail_data : Guardrail) : String :=
  "\n" ++ guardrail_name ++ ": " ++ guardrail_data.description ++
  "\n  Example questions you can reference (DO NOT copy exactly, but use as inspiration):\n    " ++
  guardrail_example_block guardrail_data ++ "\n"

/-- The `"\n".join(guardrail_sections)` of src/app.py line 273, built over
the guardrail table of the stage in insertion order. -/
def guardrail_content (stage : String) : String :=
  pyJoin "\n" ((get_guardrails_for_stage stage).map (fun e => guardrail_section e.1 e.2))

/-- Literal segment 1 of the src/app.py prompt template (lines 275-325). -/
def appLit1 : String := "\nYou are a user researcher creating a 10-question survey designed to validate assumptions for a startup in the **"

/-- Literal segment 2 of the src/app.py prompt template. -/
def appLit2 : String := "** stage.\n\n--- Startup Overview ---\nTitle: "

/-- Literal segment 3 of the src/app.py prompt template. -/
def appLit3 : String := "\nDescription: "

/-- Literal segment 4 of the src/app.py prompt template. -/
def appLit4 : String := "\nStage: "

/-- Literal segment 5 of the src/app.py prompt template. -/
def appLit5 : String := "\nSurvey Purpose: "

/-- Literal segment 6 of the src/app.py prompt template. -/
def appLit6 : String := "\n\n--- Burning Problems to Validate ---\n"

/-- Literal segment 7 of the src/app.py prompt template. -/
def appLit7 : String := "\n\n--- Guardrail Categories with Example Questions ---\n"

/-- Literal segment 8 (the tail) of the src/app.py prompt template. -/
def appLit8 : String := "\n\nSURVEY STRUCTURE REQUIREMENTS:\n- Generate **exactly 10 questions**\n- **3 questions** must reference burning problems (1 question per burning problem)\n- **7 questions** must be based on guardrails from the above list\n- Use a **diverse mix of question types**:\n  * **scale** questions (1-5 or 1-10 rating scales)\n  * **mcq** questions (multiple choice with options)\n  * **yes_no** questions (simple Yes/No)\n  * **text** questions (open-ended text responses)\n\nQUESTION REQUIREMENTS:\n- Each question must test a real-world assumption that a user (not the founder) can answer\n- Questions should be customer-facing and user-friendly\n- Use the example questions as REFERENCE ONLY - do not copy them exactly\n- Create original questions inspired by the guardrail concepts\n- Ensure questions are actionable and provide meaningful insights\n- For MCQ questions, provide 3-5 relevant options in square brackets\n\nReturn only valid JSON in this EXACT format:\n[\n  \x7b\n    \"text\": \"Your question text here\",\n    \"bucket\": \"burning_problem_1\" | \"burning_problem_2\" | \"burning_problem_3\" | \"guardrail:<GUARDRAIL_NAME>\",\n    \"type\": \"scale\" | \"mcq\" | \"yes_no\" | \"text\",\n    \"burning_problem_reference\": 1 | 2 | 3 | null\n  \x7d,\n  ...\n]\n\nIMPORTANT: \n- For MCQ questions, include options within the question text using square brackets\n- For scale questions, specify the scale range in the question text\n- Ensure exactly 3 questions have burning_problem_reference values (1, 2, 3)\n- Ensure exactly 7 questions have guardrail buckets\n- Use diverse question types across all 10 questions\n"

/-- The f-string assigned to `prompt` in `build_guardrail_based_prompt`
(src/app.py lines 275-325), before `.strip()`. -/
def guardrailPromptBody (surveyPurpose : String)
    (startupAnalysis : StartupAnalysis) : String :=
  appLit1 ++ startupAnalysis.stage ++ appLit2 ++ startupAnalysis.title ++
  appLit3 ++ startupAnalysis.description ++ appLit4 ++ startupAnalysis.stage ++
  appLit5 ++ surveyPurpose ++ appLit6 ++
  numberedProblems startupAnalysis.burningProblems ++ appLit7 ++
  guardrail_content startupAnalysis.stage ++ appLit8

/-- Enhanced prompt builder of src/app.py (lines 259-326,
`build_guardrail_based_prompt`): the template followed by `.strip()`. -/
def build_guardrail_based_prompt (surveyPurpose : String)
    (startupAnalysis : StartupAnalysis) : String :=
  pyStrip (guardrailPromptBody surveyPurpose startupAnalysis)

/-!
JSON values and a model of the standard-library `json.loads`, used by the
endpoint in src/main.py.  The parser is an executable recursive-descent
parser over the character list, with a fuel argument for termination.
Model limitations (irrelevant to every claim and witness here): numeric
literals are restricted to optionally signed integers, and only the
single-character string escapes of JSON are recognised.
-/

/-- A decoded JSON value (the possible results of `json.loads`). -/
inductive Json where
  | null : Json
  | bool (b : Bool) : Json
  | num (n : Int) : Json
  | str (s : String) : Json
  | arr (elems : List Json) : Json
  | obj (members : List (String × Json)) : Json

/-- JSON insignificant whitespace. -/
def jsonWs (c : Char) : Bool :=
  c = ' ' || c = '\t' || c = '\n' || c = '\r'

/-- Skip insignificant whitespace. -/
def skipJsonWs (l : List Char) : List Char :=
  l.dropWhile jsonWs

/-- Decimal value of a digit list. -/
def charsToNat (ds : List Char) : Nat :=
  ds.foldl (fun acc c => acc * 10 + (c.toNat - 48)) 0

/-- Parse one or more decimal digits. -/
def parseDigits (l : List Char) : Option (Nat × List Char) :=
  let ds := l.takeWhile Char.isDigit
  if ds.isEmpty then none else some (charsToNat ds, l.drop ds.length)

/-- Parse the remainder of a JSON string literal, after the opening quote. -/
def parseStringRest : List Char → Option (List Char × List Char)
  | [] => none
  | '"' :: rest => some ([], rest)
  | '\\' :: c :: rest =>
    match (match c with
           | '"' => some '"'
           | '\\' => some '\\'
           | '/' => some '/'
           | 'n' => some '\n'
           | 't' => some '\t'
           | 'r' => some '\r'
           | 'b' => some '\x08'
           | 'f' => some '\x0c'
           | _ => none) with
    | none => none
    | some e =>
      match parseStringRest rest with
      | none => none
      | some (s, r) => some (e :: s, r)
  | c :: rest =>
    match parseStringRest rest with
    | none => none
    | some (s, r) => some (c :: s, r)

mutual

/-- Parse one JSON value (leading whitespace allowed). -/
def parseJsonValue : Nat → List Char → Option (Json × List Char)
  | 0, _ => none
  | fuel + 1, l =>
    match skipJsonWs l with
    | 'n' :: 'u' :: 'l' :: 'l' :: rest => some (.null, rest)
    | 't' :: 'r' :: 'u' :: 'e' :: rest => some (.bool true, rest)
    | 'f' :: 'a' :: 'l' :: 's' :: 'e' :: rest => some (.bool false, rest)
    | '"' :: rest =>
      match parseStringRest rest with
      | none => none
      | some (s, r) => some (.str ⟨s⟩, r)
    | '-' :: rest =>
      match parseDigits rest with
      | none => none
      | some (n, r) => some (.num (-(n : Int)), r)
    | '[' :: rest =>
      (match skipJsonWs rest with
       | ']' :: r => some (.arr [], r)
       | _ =>
         match parseJsonElems fuel rest with
         | none => none
         | some (vs, r) => some (.arr vs, r))
    | '\x7b' :: rest =>
      (match skipJsonWs rest with
       | '\x7d' :: r => some (.obj [], r)
       | _ =>
         match parseJsonMembers fuel rest with
         | none => none
         | some (ms, r) => some (.obj ms, r))
    | c :: rest =>
      if c.isDigit then
        match parseDigits (c :: rest) with
        | none => none
        | some (n, r) => some (.num (n : Int), r)
      else none
    | [] => none

/-- Parse the comma-separated elements of a JSON array up to and including
the closing bracket. -/
def parseJsonElems : Nat → List Char → Option (List Json × List Char)
  | 0, _ => none
  | fuel + 1, l =>
    match parseJsonValue fuel l with
    | none => none
    | some (v, r) =>
      match skipJsonWs r with
      | ',' :: r2 =>
        (match parseJsonElems fuel r2 with
         | none => none
         | some (vs, r3) => some (v :: vs, r3))
      | ']' :: r2 => some ([v], r2)
      | _ => none

/-- Parse the comma-separated members of a JSON object up to and including
the closing brace. -/
def parseJsonMembers : Nat → List Char → Option (List (String × Json) × List Char)
  | 0, _ => none
  | fuel + 1, l =>
    match skipJsonWs l with
    | '"' :: rest =>
      (match parseStringRest rest with
       | none => none
       | some (k, r) =>
         match skipJsonWs r with
         | ':' :: r2 =>
           (match parseJsonValue fuel r2 with
            | none => none
            | some (v, r3) =>
              match skipJsonWs r3 with
              | ',' :: r4 =>
                (match parseJsonMembers fuel r4 with
                 | none => none
                 | some (ms, r5) => some ((⟨k⟩, v) :: ms, r5))
              | '\x7d' :: r4 => some ([(⟨k⟩, v)], r4)
              | _ => none)
         | _ => none)
    | _ => none

end

/-- Model of the Python `json.loads`: parse a single JSON document and reject
trailing non-whitespace (Python raises on extra data). `none` models the
`json.JSONDecodeError` path. -/
def json_loads (s : String) : Option Json :=
  match parseJsonValue (2 * s.data.length + 2) s.data with
  | some (v, rest) => if (skipJsonWs rest).isEmpty then some v else none
  | none => none

/-- The success test of the endpoint: `isinstance(parsed, list) and
len(parsed) == 10` (src/main.py line 195). -/
def isList10 : Json → Bool
  | .arr elems => elems.length == 10
  | _ => false

/-!
The HTTP endpoint of src/main.py.  `fastapi.JSONResponse` is modelled by a
body/status pair; the external model call `query_claude` is an explicit
function argument (its result is the raw response text); the exception text
interpolated into the parse-failure message comes from the json library and
is not modelled (the message is represented by its constant source prefix).
-/

/-- A `fastapi.JSONResponse`: JSON body plus HTTP status code (default 200
when the source omits `status_code`). -/
structure JSONResponse where
  content : Json
  status_code : Nat

/-- The `POST /api/ai/survey-generator` handler `generate_survey`
(src/main.py lines 175-217), with the Claude call abstracted as the
function argument `query_claude`. -/
def generate_survey (payload : SurveyRequest)
    (query_claude : String → String) : JSONResponse :=
  if payload.startupAnalysis.burningProblems.length ≠ 3 then
    { content := .obj
        [("error", .str "Exactly 3 burning problems are required"),
         ("received", .num (payload.startupAnalysis.burningProblems.length : Int)),
         ("studyId", .str payload.studyId)],
      status_code := 400 }
  else
    let prompt := build_stage_specific_survey_prompt payload.surveyPurpose
      payload.startupAnalysis
    let raw_output := query_claude prompt
    match json_loads raw_output with
    | some parsed =>
      if isList10 parsed then
        { content := .obj
            [("questions", parsed),
             ("stage", .str payload.startupAnalysis.stage),
             ("burningProblems", .arr (payload.startupAnalysis.burningProblems.map Json.str)),
             ("studyId", .str payload.studyId),
             ("metadata", .obj
               [("stage_focus", .str (get_stage_focus payload.startupAnalysis.stage).primary_focus),
                ("validation_goal", .str (get_stage_focus payload.startupAnalysis.stage).validation_goal)])],
          status_code := 200 }
      else
        { content := .obj
            [("error", .str "Output is not a valid list of 10 items"),
             ("raw", .str raw_output),
             ("studyId", .str payload.studyId)],
          status_code := 200 }
    | none =>
      { content := .obj
          [("error", .str "Could not parse JSON: "),
           ("raw_output", .str raw_output),
           ("studyId", .str payload.studyId)],
        status_code := 200 }

/-!
Decomposition of `pyStrip` over the prompt template: the template begins and
ends with fixed literal segments whose first and last non-whitespace
characters are fixed, so `.strip()` only removes the leading and
trailing newlines of the template, whatever the interpolated values are.
-/

theorem strContains_trans {a b c : String} (h1 : strContains a b)
    (h2 : strContains b c) : strContains a c :=
  h2.trans h1

theorem infix_appl {n a : List Char} (b : List Char) (h : n <:+: a) :
    n <:+: a ++ b :=
  h.trans (infixOfPre (List.prefix_append a b))

theorem infix_appr (a : List Char) {n b : List Char} (h : n <:+: b) :
    n <:+: a ++ b :=
  h.trans (infixOfSuf (List.suffix_append a b))

theorem dropWhile_append_ne (p : Char → Bool) {l₁ : List Char} (l₂ : List Char)
    (h : l₁.dropWhile p ≠ []) :
    (l₁ ++ l₂).dropWhile p = l₁.dropWhile p ++ l₂ := by
  rw [List.dropWhile_append]
  simp [List.isEmpty_iff, h]

theorem stripList_decomp (a m b : List Char)
    (ha : a.dropWhile pyIsSpace ≠ [])
    (hb : b.reverse.dropWhile pyIsSpace ≠ []) :
    (((a ++ (m ++ b)).dropWhile pyIsSpace).reverse.dropWhile pyIsSpace).reverse =
      a.dropWhile pyIsSpace ++ (m ++ (b.reverse.dropWhile pyIsSpace).reverse) := by
  rw [dropWhile_append_ne pyIsSpace (m ++ b) ha]
  rw [List.reverse_append, List.reverse_append]
  rw [List.append_assoc]
  rw [dropWhile_append_ne pyIsSpace _ hb]
  simp [List.reverse_append, List.append_assoc]

theorem pyStrip_data (s : String) :
    (pyStrip s).data =
      ((s.data.dropWhile pyIsSpace).reverse.dropWhile pyIsSpace).reverse :=
  rfl

/-- Leading literal of the src/app.py template after the left strip. -/
def appLit1S : String := pyLStrip appLit1

/-- Trailing literal of the src/app.py template after the right strip. -/
def appLit8S : String := pyRStrip appLit8

set_option maxRecDepth 100000 in
theorem build_guardrail_based_prompt_data (surveyPurpose : String)
    (sa : StartupAnalysis) :
    (build_guardrail_based_prompt surveyPurpose sa).data =
      appLit1S.data ++ (sa.stage.data ++ (appLit2.data ++ (sa.title.data ++
      (appLit3.data ++ (sa.description.data ++ (appLit4.data ++ (sa.stage.data ++
      (appLit5.data ++ (surveyPurpose.data ++ (appLit6.data ++
      ((numberedProblems sa.burningProblems).data ++ (appLit7.data ++
      ((guardrail_content sa.stage).data ++ appLit8S.data))))))))))))) := by
  have hbody : (guardrailPromptBody surveyPurpose sa).data =
      appLit1.data ++ ((sa.stage.data ++ (appLit2.data ++ (sa.title.data ++
      (appLit3.data ++ (sa.description.data ++ (appLit4.data ++ (sa.stage.data ++
      (appLit5.data ++ (surveyPurpose.data ++ (appLit6.data ++
      ((numberedProblems sa.burningProblems).data ++ (appLit7.data ++
      (guardrail_content sa.stage).data)))))))))))) ++ appLit8.data) := by
    simp [guardrailPromptBody, List.append_assoc]
  have ha : appLit1.data.dropWhile pyIsSpace ≠ [] := by decide
  have hb : appLit8.data.reverse.dropWhile pyIsSpace ≠ [] := by decide
  calc (build_guardrail_based_prompt surveyPurpose sa).data
      = (((guardrailPromptBody surveyPurpose sa).data.dropWhile
            pyIsSpace).reverse.dropWhile pyIsSpace).reverse := pyStrip_data _
    _ = _ := by
        rw [hbody, stripList_decomp _ _ _ ha hb]
        simp [appLit1S, appLit8S, pyLStrip, pyRStrip, List.append_assoc]

theorem build_stage_specific_survey_prompt_data (surveyPurpose : String)
    (sa : StartupAnalysis) :
    (build_stage_specific_survey_prompt surveyPurpose sa).data =
      mainLit1.data ++ (sa.stage.data ++ (mainLit2.data ++ (sa.title.data ++ (mainLit3.data ++
      (sa.description.data ++ (mainLit4.data ++ (sa.stage.data ++ (mainLit5.data ++
      (surveyPurpose.data ++ (mainLit6.data ++ ((numberedProblems sa.burningProblems).data ++
      (mainLit7.data ++ ((get_stage_focus sa.stage).primary_focus.data ++ (mainLit8.data ++
      ((get_stage_focus sa.stage).validation_goal.data ++ (mainLit9.data ++ (sa.stage.data ++
      (mainLit10.data ++ ((get_stage_focus sa.stage).primary_focus.data ++ (mainLit11.data ++
      ((pyJoin "\n" ((get_stage_focus sa.stage).question_types.map (fun qtype => "â€¢ " ++
      qtype))).data ++ (mainLit12.data)))))))))))))))))))))) := by
  simp [build_stage_specific_survey_prompt, List.append_assoc]

/-- Both burning problems embedded by `numberedProblems` on a 3-element list
occur literally in the join. -/
theorem strContains_numberedProblems3 (p1 p2 p3 : String) :
    strContains (numberedProblems [p1, p2, p3]) p1 ∧
    strContains (numberedProblems [p1, p2, p3]) p2 ∧
    strContains (numberedProblems [p1, p2, p3]) p3 := by
  refine ⟨?_, ?_, ?_⟩ <;>
  · simp only [strContains, numberedProblems, numberLines, pyJoin,
      String.data_append, List.append_assoc]
    repeat
      first
      | exact infix_appl _ (List.infix_refl _)
      | exact List.infix_refl _
      | apply infix_appr

/-- Every guardrail name registered for a stage occurs in the guardrail
content block built for that stage. -/
theorem strContains_guardrail_content (stage name : String) (g : Guardrail)
    (hmem : (name, g) ∈ get_guardrails_for_stage stage) :
    strContains (guardrail_content stage) name := by
  have h1 : guardrail_section name g ∈
      (get_guardrails_for_stage stage).map (fun e => guardrail_section e.1 e.2) :=
    List.mem_map_of_mem _ hmem
  have h2 : strContains (guardrail_content stage) (guardrail_section name g) :=
    strContains_pyJoin _ _ _ h1
  refine strContains_trans h2 ?_
  simp only [strContains, guardrail_section, String.data_append, List.append_assoc]
  exact infix_appr _ (infix_appl _ (List.infix_refl _))

/-- The stage string is embedded in the src/app.py prompt. -/
theorem strContains_app_prompt_stage (purpose : String) (sa : StartupAnalysis) :
    strContains (build_guardrail_based_prompt purpose sa) sa.stage := by
  simp only [strContains, build_guardrail_based_prompt_data]
  apply infix_appr
  exact infix_appl _ (List.infix_refl _)

/-- Anything inside the numbered burning-problem block is in the src/app.py
prompt. -/
theorem strContains_app_prompt_problems (purpose : String) (sa : StartupAnalysis)
    (n : String) (h : strContains (numberedProblems sa.burningProblems) n) :
    strContains (build_guardrail_based_prompt purpose sa) n := by
  simp only [strContains, build_guardrail_based_prompt_data]
  apply infix_appr
  apply infix_appr
  apply infix_appr
  apply infix_appr
  apply infix_appr
  apply infix_appr
  apply infix_appr
  apply infix_appr
  apply infix_appr
  apply infix_appr
  apply infix_appr
  exact infix_appl _ h

/-- Anything inside the guardrail content block is in the src/app.py
prompt. -/
theorem strContains_app_prompt_content (purpose : String) (sa : StartupAnalysis)
    (n : String) (h : strContains (guardrail_content sa.stage) n) :
    strContains (build_guardrail_based_prompt purpose sa) n := by
  simp only [strContains, build_guardrail_based_prompt_data]
  apply infix_appr
  apply infix_appr
  apply infix_appr
  apply infix_appr
  apply infix_appr
  apply infix_appr
  apply infix_appr
  apply infix_appr
  apply infix_appr
  apply infix_appr
  apply infix_appr
  apply infix_appr
  apply infix_appr
  exact infix_appl _ h

/-- Anything inside the stripped template tail is in the src/app.py
prompt. -/
theorem strContains_app_prompt_tail (purpose : String) (sa : StartupAnalysis)
    (n : String) (h : strContains appLit8S n) :
    strContains (build_guardrail_based_prompt purpose sa) n := by
  simp only [strContains, build_guardrail_based_prompt_data]
  apply infix_appr
  apply infix_appr
  apply infix_appr
  apply infix_appr
  apply infix_appr
  apply infix_appr
  apply infix_appr
  apply infix_appr
  apply infix_appr
  apply infix_appr
  apply infix_appr
  apply infix_appr
  apply infix_appr
  apply infix_appr
  exact h

/-- The stage string is embedded in the src/main.py prompt. -/
theorem strContains_main_prompt_stage (purpose : String) (sa : StartupAnalysis) :
    strContains (build_stage_specific_survey_prompt purpose sa) sa.stage := by
  simp only [strContains, build_stage_specific_survey_prompt_data]
  apply infix_appr
  exact infix_appl _ (List.infix_refl _)

/-- Anything inside the numbered burning-problem block is in the src/main.py
prompt. -/
theorem strContains_main_prompt_problems (purpose : String) (sa : StartupAnalysis)
    (n : String) (h : strContains (numberedProblems sa.burningProblems) n) :
    strContains (build_stage_specific_survey_prompt purpose sa) n := by
  simp only [strContains, build_stage_specific_survey_prompt_data]
  apply infix_appr
  apply infix_appr
  apply infix_appr
  apply infix_appr
  apply infix_appr
  apply infix_appr
  apply infix_appr
  apply infix_appr
  apply infix_appr
  apply infix_appr
  apply infix_appr
  exact infix_appl _ h

/-- Anything inside literal segment 9 is in the src/main.py prompt. -/
theorem strContains_main_prompt_lit9 (purpose : String) (sa : StartupAnalysis)
    (n : String) (h : strContains mainLit9 n) :
    strContains (build_stage_specific_survey_prompt purpose sa) n := by
  simp only [strContains, build_stage_specific_survey_prompt_data]
  apply infix_appr
  apply infix_appr
  apply infix_appr
  apply infix_appr
  apply infix_appr
  apply infix_appr
  apply infix_appr
  apply infix_appr
  apply infix_appr
  apply infix_appr
  apply infix_appr
  apply infix_appr
  apply infix_appr
  apply infix_appr
  apply infix_appr
  apply infix_appr
  exact infix_appl _ h

/-- Anything inside literal segment 12 (the template tail with the JSON
schema) is in the src/main.py prompt. -/
theorem strContains_main_prompt_lit12 (purpose : String) (sa : StartupAnalysis)
    (n : String) (h : strContains mainLit12 n) :
    strContains (build_stage_specific_survey_prompt purpose sa) n := by
  simp only [strContains, build_stage_specific_survey_prompt_data]
  apply infix_appr
  apply infix_appr
  apply infix_appr
  apply infix_appr
  apply infix_appr
  apply infix_appr
  apply infix_appr
  apply infix_appr
  apply infix_appr
  apply infix_appr
  apply infix_appr
  apply infix_appr
  apply infix_appr
  apply infix_appr
  apply infix_appr
  apply infix_appr
  apply infix_appr
  apply infix_appr
  apply infix_appr
  apply infix_appr
  apply infix_appr
  apply infix_appr
  exact h

/-!
Auxiliary observations on decoded JSON values, used to state claims about
the response bodies of the endpoint.
-/

/-- Keys of a top-level JSON object (empty for non-objects). -/
def jsonObjKeys : Json → List String
  | .obj members => members.map Prod.fst
  | _ => []

/-- The value of the `questions` field when it is the first member of the
response object, mirroring the position the endpoint writes it at. -/
def questionsField : Json → Option Json
  | .obj (("questions", v) :: _) => some v
  | _ => none

mutual

/-- All numeric leaves of a JSON value. -/
def jsonNums : Json → List Int
  | .null => []
  | .bool _ => []
  | .num n => [n]
  | .str _ => []
  | .arr elems => jsonNumsList elems
  | .obj members => jsonNumsMembers members

/-- All numeric leaves of a list of JSON values. -/
def jsonNumsList : List Json → List Int
  | [] => []
  | x :: xs => jsonNums x ++ jsonNumsList xs

/-- All numeric leaves under the members of an object. -/
def jsonNumsMembers : List (String × Json) → List Int
  | [] => []
  | m :: ms => jsonNums m.2 ++ jsonNumsMembers ms

end

mutual

/-- All string leaves of a JSON value, object keys included. -/
def jsonStrs : Json → List String
  | .null => []
  | .bool _ => []
  | .num _ => []
  | .str s => [s]
  | .arr elems => jsonStrsList elems
  | .obj members => jsonStrsMembers members

/-- All string leaves of a list of JSON values. -/
def jsonStrsList : List Json → List String
  | [] => []
  | x :: xs => jsonStrs x ++ jsonStrsList xs

/-- All string leaves under the members of an object, keys included. -/
def jsonStrsMembers : List (String × Json) → List String
  | [] => []
  | m :: ms => m.1 :: (jsonStrs m.2 ++ jsonStrsMembers ms)

end

/-- Number of array elements that are objects carrying a non-null
`burning_problem_reference` member. -/
def countNonNullRefs (xs : List Json) : Nat :=
  (xs.filter (fun j =>
    match j with
    | .obj members =>
      match members.lookup "burning_problem_reference" with
      | some Json.null => false
      | some _ => true
      | none => false
    | _ => false)).length

/-- Length of a parsed JSON array (0 for anything else). -/
def jsonArrLen : Option Json → Nat
  | some (Json.arr xs) => xs.length
  | _ => 0

/-- The `countNonNullRefs` of a parsed JSON array (0 for anything else). -/
def jsonArrRefCount : Option Json → Nat
  | some (Json.arr xs) => countNonNullRefs xs
  | _ => 0

/-- The `UnknownStage` failure of the spec.  The source code has no corresponding
raise path; the type exists to state the specified failure contract of the
catalog lookups. -/
inductive UnknownStage where
  | unknownStage
deriving DecidableEq

/-- The guardrail lookup as a fallible computation: the Python function
`get_guardrails_for_stage` has no raise path, so its embedding returns
`Except.ok` on every input. -/
def get_guardrails_for_stageE (s : String) :
    Except UnknownStage (List (String × Guardrail)) :=
  .ok (get_guardrails_for_stage s)

/-- The stage-strategy lookup as a fallible computation: the Python function
`get_stage_focus` has no raise path, so its embedding returns `Except.ok`
on every input. -/
def get_stage_focusE (s : String) : Except UnknownStage StageStrategy :=
  .ok (get_stage_focus s)

/-!
Claim theorems.
-/

/-- C1 counterexample: the claim says that for a stage string outside the
closed enumeration the catalog lookups fail with an `UnknownStage` error
rather than returning a value.  At the concrete unknown stage "FOO" both
lookups return normally (`Except.ok`): `get_guardrails_for_stage` returns
the empty dict and `get_stage_focus` returns the "IDEATION & PLANNING"
fallback strategy, so neither fails. -/
theorem catalog_lookup_unknown_stage_returns_value :
    validStageMain "FOO" = false ∧ validStageApp "FOO" = false ∧
    get_guardrails_for_stageE "FOO" = .ok [] ∧
    get_guardrails_for_stageE "FOO" ≠ .error UnknownStage.unknownStage ∧
    get_stage_focusE "FOO" = .ok ideationPlanningStrategy ∧
    get_stage_focusE "FOO" ≠ .error UnknownStage.unknownStage := by
  refine ⟨rfl, rfl, rfl, ?_, rfl, ?_⟩ <;> simp [get_guardrails_for_stageE, get_stage_focusE]

/-- C1 amended: for every stage string outside the closed enumeration the
catalog lookups do not fail; `get_guardrails_for_stage` returns the empty
dict and `get_stage_focus` falls back to the "IDEATION & PLANNING"
strategy. -/
theorem catalog_lookup_unknown_stage_fallback (s : String)
    (h : validStageMain s = false) :
    get_guardrails_for_stage s = [] ∧
    get_stage_focus s = ideationPlanningStrategy ∧
    get_guardrails_for_stageE s = .ok (get_guardrails_for_stage s) ∧
    get_stage_focusE s = .ok (get_stage_focus s) := by
  simp only [validStageMain, Bool.or_eq_false_iff, decide_eq_false_iff_not] at h
  obtain ⟨⟨⟨⟨h1, h2⟩, h3⟩, h4⟩, h5⟩ := h
  have b1 : (s == "IDEATION & PLANNING") = false := by
    simp [beq_eq_false_iff_ne]; exact h1
  have b2 : (s == "PROTOTYPE DEVELOPMENT") = false := by
    simp [beq_eq_false_iff_ne]; exact h2
  have b3 : (s == "VALIDATION & ITERATION") = false := by
    simp [beq_eq_false_iff_ne]; exact h3
  have b4 : (s == "LAUNCH & SCALING") = false := by
    simp [beq_eq_false_iff_ne]; exact h4
  have b5 : (s == "GROWTH & OPTIMIZATION") = false := by
    simp [beq_eq_false_iff_ne]; exact h5
  refine ⟨?_, ?_, rfl, rfl⟩
  · simp [get_guardrails_for_stage, h1, h2]
  · simp [get_stage_focus, stage_strategies, List.lookup, b1, b2, b3, b4, b5]

/-- C1 amended, witnessed at the concrete unknown stage "NOT A STAGE". -/
theorem catalog_lookup_unknown_stage_fallback_witness :
    get_guardrails_for_stage "NOT A STAGE" = [] ∧
    get_stage_focus "NOT A STAGE" = ideationPlanningStrategy ∧
    get_guardrails_for_stageE "NOT A STAGE" = .ok (get_guardrails_for_stage "NOT A STAGE") ∧
    get_stage_focusE "NOT A STAGE" = .ok (get_stage_focus "NOT A STAGE") :=
  catalog_lookup_unknown_stage_fallback "NOT A STAGE" (by decide)

/-- C2: both prompt builders are pure functions of the survey purpose and
the startup analysis; identical inputs give byte-identical prompt strings.
In this functional embedding of the Python source (which reads no ambient
state and embeds no timestamps or randomness) this is congruence. -/
theorem render_deterministic (purpose1 purpose2 : String)
    (sa1 sa2 : StartupAnalysis) (hp : purpose1 = purpose2) (hsa : sa1 = sa2) :
    build_guardrail_based_prompt purpose1 sa1 =
      build_guardrail_based_prompt purpose2 sa2 ∧
    build_stage_specific_survey_prompt purpose1 sa1 =
      build_stage_specific_survey_prompt purpose2 sa2 := by
  subst hp; subst hsa; exact ⟨rfl, rfl⟩

/-- C2 witnessed at a concrete repeated call. -/
theorem render_deterministic_witness :
    build_guardrail_based_prompt "Understand need"
      ⟨"Vapi", "Voice AI platform", "PROTOTYPE DEVELOPMENT", ["A", "B", "C"]⟩ =
    build_guardrail_based_prompt "Understand need"
      ⟨"Vapi", "Voice AI platform", "PROTOTYPE DEVELOPMENT", ["A", "B", "C"]⟩ ∧
    build_stage_specific_survey_prompt "Understand need"
      ⟨"Vapi", "Voice AI platform", "PROTOTYPE DEVELOPMENT", ["A", "B", "C"]⟩ =
    build_stage_specific_survey_prompt "Understand need"
      ⟨"Vapi", "Voice AI platform", "PROTOTYPE DEVELOPMENT", ["A", "B", "C"]⟩ :=
  render_deterministic _ _ _ _ rfl rfl

/-- C3: for a valid startup profile (exactly three non-empty burning
problems, stage in the closed five-stage enumeration) the guardrail-based
prompt of src/app.py contains the literal text of each burning problem, the
stage label, and the name of every guardrail category registered for that
stage via `get_guardrails_for_stage` (the catalog registers categories for
the two catalogued stages and nothing for the other three); the
stage-specific prompt of src/main.py likewise embeds the problems and the
stage label (that variant registers no guardrail catalog, so its category
obligation is empty). -/
theorem render_contains_problems_stage_guardrails
    (purpose : String) (sa : StartupAnalysis) (p1 p2 p3 : String)
    (hstage : validStageMain sa.stage = true)
    (hbp : sa.burningProblems = [p1, p2, p3])
    (hne1 : p1 ≠ "") (hne2 : p2 ≠ "") (hne3 : p3 ≠ "") :
    strContains (build_guardrail_based_prompt purpose sa) p1 ∧
    strContains (build_guardrail_based_prompt purpose sa) p2 ∧
    strContains (build_guardrail_based_prompt purpose sa) p3 ∧
    strContains (build_guardrail_based_prompt purpose sa) sa.stage ∧
    (∀ entry ∈ get_guardrails_for_stage sa.stage,
      strContains (build_guardrail_based_prompt purpose sa) entry.1) ∧
    strContains (build_stage_specific_survey_prompt purpose sa) p1 ∧
    strContains (build_stage_specific_survey_prompt purpose sa) p2 ∧
    strContains (build_stage_specific_survey_prompt purpose sa) p3 ∧
    strContains (build_stage_specific_survey_prompt purpose sa) sa.stage := by
  have hnp : strContains (numberedProblems sa.burningProblems) p1 ∧
      strContains (numberedProblems sa.burningProblems) p2 ∧
      strContains (numberedProblems sa.burningProblems) p3 := by
    rw [hbp]; exact strContains_numberedProblems3 p1 p2 p3
  refine ⟨strContains_app_prompt_problems _ _ _ hnp.1,
    strContains_app_prompt_problems _ _ _ hnp.2.1,
    strContains_app_prompt_problems _ _ _ hnp.2.2,
    strContains_app_prompt_stage _ _, ?_,
    strContains_main_prompt_problems _ _ _ hnp.1,
    strContains_main_prompt_problems _ _ _ hnp.2.1,
    strContains_main_prompt_problems _ _ _ hnp.2.2,
    strContains_main_prompt_stage _ _⟩
  intro entry hmem
  exact strContains_app_prompt_content _ _ _
    (strContains_guardrail_content sa.stage entry.1 entry.2
      (by simpa using hmem))

/-- C3 witnessed at a concrete valid profile in "PROTOTYPE DEVELOPMENT". -/
theorem render_contains_problems_stage_guardrails_witness :
    strContains
      (build_guardrail_based_prompt "Understand need"
        ⟨"Vapi", "Voice AI platform", "PROTOTYPE DEVELOPMENT",
         ["Problem one", "Problem two", "Problem three"]⟩)
      "Problem one" ∧
    strContains
      (build_guardrail_based_prompt "Understand need"
        ⟨"Vapi", "Voice AI platform", "PROTOTYPE DEVELOPMENT",
         ["Problem one", "Problem two", "Problem three"]⟩)
      "Problem two" ∧
    strContains
      (build_guardrail_based_prompt "Understand need"
        ⟨"Vapi", "Voice AI platform", "PROTOTYPE DEVELOPMENT",
         ["Problem one", "Problem two", "Problem three"]⟩)
      "Problem three" ∧
    strContains
      (build_guardrail_based_prompt "Understand need"
        ⟨"Vapi", "Voice AI platform", "PROTOTYPE DEVELOPMENT",
         ["Problem one", "Problem two", "Problem three"]⟩)
      (StartupAnalysis.stage ⟨"Vapi", "Voice AI platform", "PROTOTYPE DEVELOPMENT",
         ["Problem one", "Problem two", "Problem three"]⟩) ∧
    (∀ entry ∈ get_guardrails_for_stage
        (StartupAnalysis.stage ⟨"Vapi", "Voice AI platform", "PROTOTYPE DEVELOPMENT",
           ["Problem one", "Problem two", "Problem three"]⟩),
      strContains
        (build_guardrail_based_prompt "Understand need"
          ⟨"Vapi", "Voice AI platform", "PROTOTYPE DEVELOPMENT",
           ["Problem one", "Problem two", "Problem three"]⟩)
        entry.1) ∧
    strContains
      (build_stage_specific_survey_prompt "Understand need"
        ⟨"Vapi", "Voice AI platform", "PROTOTYPE DEVELOPMENT",
         ["Problem one", "Problem two", "Problem three"]⟩)
      "Problem one" ∧
    strContains
      (build_stage_specific_survey_prompt "Understand need"
        ⟨"Vapi", "Voice AI platform", "PROTOTYPE DEVELOPMENT",
         ["Problem one", "Problem two", "Problem three"]⟩)
      "Problem two" ∧
    strContains
      (build_stage_specific_survey_prompt "Understand need"
        ⟨"Vapi", "Voice AI platform", "PROTOTYPE DEVELOPMENT",
         ["Problem one", "Problem two", "Problem three"]⟩)
      "Problem three" ∧
    strContains
      (build_stage_specific_survey_prompt "Understand need"
        ⟨"Vapi", "Voice AI platform", "PROTOTYPE DEVELOPMENT",
         ["Problem one", "Problem two", "Problem three"]⟩)
      (StartupAnalysis.stage ⟨"Vapi", "Voice AI platform", "PROTOTYPE DEVELOPMENT",
         ["Problem one", "Problem two", "Problem three"]⟩) :=
  render_contains_problems_stage_guardrails "Understand need"
    ⟨"Vapi", "Voice AI platform", "PROTOTYPE DEVELOPMENT",
     ["Problem one", "Problem two", "Problem three"]⟩
    "Problem one" "Problem two" "Problem three"
    (by decide) rfl (by decide) (by decide) (by decide)

set_option maxRecDepth 100000 in
/-- C9: every prompt produced by either builder states the output
contract for the model: the literal requirement "exactly 10 questions" and the JSON
schema field names text, bucket, type, and burning_problem_reference. -/
theorem prompt_states_output_contract (purpose : String) (sa : StartupAnalysis) :
    (strContains (build_guardrail_based_prompt purpose sa) "exactly 10 questions" ∧
     strContains (build_guardrail_based_prompt purpose sa) "\"text\":" ∧
     strContains (build_guardrail_based_prompt purpose sa) "\"bucket\":" ∧
     strContains (build_guardrail_based_prompt purpose sa) "\"type\":" ∧
     strContains (build_guardrail_based_prompt purpose sa) "\"burning_problem_reference\":") ∧
    (strContains (build_stage_specific_survey_prompt purpose sa) "exactly 10 questions" ∧
     strContains (build_stage_specific_survey_prompt purpose sa) "\"text\":" ∧
     strContains (build_stage_specific_survey_prompt purpose sa) "\"bucket\":" ∧
     strContains (build_stage_specific_survey_prompt purpose sa) "\"type\":" ∧
     strContains (build_stage_specific_survey_prompt purpose sa) "\"burning_problem_reference\":") := by
  refine ⟨⟨?_, ?_, ?_, ?_, ?_⟩, ?_, ?_, ?_, ?_, ?_⟩
  · exact strContains_app_prompt_tail _ _ _ (by decide)
  · exact strContains_app_prompt_tail _ _ _ (by decide)
  · exact strContains_app_prompt_tail _ _ _ (by decide)
  · exact strContains_app_prompt_tail _ _ _ (by decide)
  · exact strContains_app_prompt_tail _ _ _ (by decide)
  · exact strContains_main_prompt_lit9 _ _ _ (by decide)
  · exact strContains_main_prompt_lit12 _ _ _ (by decide)
  · exact strContains_main_prompt_lit12 _ _ _ (by decide)
  · exact strContains_main_prompt_lit12 _ _ _ (by decide)
  · exact strContains_main_prompt_lit12 _ _ _ (by decide)

/-- C4: a request whose burningProblems list does not have exactly 3 entries
is rejected with status 400 and a diagnostic body carrying the error
message, the received count, and the studyId; the response does not depend
on the model-call function, so no model call is observable (and the prompt
value is never consulted). -/
theorem invalid_burning_problem_count_rejected (payload : SurveyRequest)
    (query_claude : String → String)
    (h : payload.startupAnalysis.burningProblems.length ≠ 3) :
    generate_survey payload query_claude =
      ⟨.obj [("error", .str "Exactly 3 burning problems are required"),
             ("received", .num (payload.startupAnalysis.burningProblems.length : Int)),
             ("studyId", .str payload.studyId)], 400⟩ ∧
    (generate_survey payload query_claude).status_code = 400 ∧
    (∀ other_query : String → String,
      generate_survey payload query_claude = generate_survey payload other_query) := by
  have hbody : ∀ q : String → String, generate_survey payload q =
      ⟨.obj [("error", .str "Exactly 3 burning problems are required"),
             ("received", .num (payload.startupAnalysis.burningProblems.length : Int)),
             ("studyId", .str payload.studyId)], 400⟩ := by
    intro q
    simp [generate_survey, h]
  exact ⟨hbody query_claude, by rw [hbody query_claude], fun q => by rw [hbody query_claude, hbody q]⟩

/-- C4 witnessed at a concrete request with only 2 burning problems. -/
theorem invalid_burning_problem_count_rejected_witness :
    generate_survey ⟨"study-1", "purpose", ⟨"T", "D", "IDEATION & PLANNING", ["a", "b"]⟩⟩
        (fun _ => "[1,2,3,4,5,6,7,8,9,10]") =
      ⟨.obj [("error", .str "Exactly 3 burning problems are required"),
             ("received", .num 2),
             ("studyId", .str "study-1")], 400⟩ :=
  (invalid_burning_problem_count_rejected
    ⟨"study-1", "purpose", ⟨"T", "D", "IDEATION & PLANNING", ["a", "b"]⟩⟩
    (fun _ => "[1,2,3,4,5,6,7,8,9,10]") (by decide)).1

/-- C5 amended: when the model response parses as a JSON array whose length
is not 10, the endpoint responds with status 200 and the body
`error = "Output is not a valid list of 10 items"`, `raw` = the raw text,
`studyId`; the observed element count is not part of the response (see the
counterexample). -/
theorem wrong_count_response_body (payload : SurveyRequest)
    (query_claude : String → String)
    (h3 : payload.startupAnalysis.burningProblems.length = 3)
    (xs : List Json)
    (hparse : json_loads (query_claude (build_stage_specific_survey_prompt
      payload.surveyPurpose payload.startupAnalysis)) = some (.arr xs))
    (hlen : xs.length ≠ 10) :
    generate_survey payload query_claude =
      ⟨.obj [("error", .str "Output is not a valid list of 10 items"),
             ("raw", .str (query_claude (build_stage_specific_survey_prompt
               payload.surveyPurpose payload.startupAnalysis))),
             ("studyId", .str payload.studyId)], 200⟩ := by
  simp [generate_survey, h3, hparse, isList10, hlen]

/-- C5 amended, witnessed at a 9-element model response. -/
theorem wrong_count_response_body_witness :
    generate_survey ⟨"study-A", "purpose", ⟨"T", "D", "IDEATION & PLANNING", ["a", "b", "c"]⟩⟩
        (fun _ => "[0,0,0,0,0,0,0,0,0]") =
      ⟨.obj [("error", .str "Output is not a valid list of 10 items"),
             ("raw", .str "[0,0,0,0,0,0,0,0,0]"),
             ("studyId", .str "study-A")], 200⟩ :=
  wrong_count_response_body
    ⟨"study-A", "purpose", ⟨"T", "D", "IDEATION & PLANNING", ["a", "b", "c"]⟩⟩
    (fun _ => "[0,0,0,0,0,0,0,0,0]") rfl
    [.num 0, .num 0, .num 0, .num 0, .num 0, .num 0, .num 0, .num 0, .num 0]
    rfl (by decide)

/-- C5 counterexample: the claim says the wrong-count failure carries the
observed element count.  For a 9-element response (digits chosen so that no
"9" occurs in any string of the interaction), the response body contains no
numeric leaf at all and no string mentioning "9": the observed count is not
carried anywhere in the response. -/
theorem wrong_count_response_omits_observed_count :
    jsonArrLen (json_loads "[0,0,0,0,0,0,0,0,0]") = 9 ∧
    jsonNums (generate_survey
      ⟨"study-A", "purpose", ⟨"T", "D", "IDEATION & PLANNING", ["a", "b", "c"]⟩⟩
      (fun _ => "[0,0,0,0,0,0,0,0,0]")).content = [] ∧
    ((jsonStrs (generate_survey
      ⟨"study-A", "purpose", ⟨"T", "D", "IDEATION & PLANNING", ["a", "b", "c"]⟩⟩
      (fun _ => "[0,0,0,0,0,0,0,0,0]")).content).all
        (fun s => !(strContainsB s "9"))) = true := by
  refine ⟨rfl, rfl, rfl⟩

/-- C6: when the model response is not valid JSON the endpoint answers with
the parse-failure body whose `raw_output` field is the original raw text
unchanged; and on the other decode failure (parsed but not a 10-element
list) the `raw` field likewise carries the original text unchanged — the
raw text is never discarded or modified on a decode failure. -/
theorem malformed_json_preserves_raw (payload : SurveyRequest)
    (query_claude : String → String)
    (h3 : payload.startupAnalysis.burningProblems.length = 3) :
    (json_loads (query_claude (build_stage_specific_survey_prompt
        payload.surveyPurpose payload.startupAnalysis)) = none →
      generate_survey payload query_claude =
        ⟨.obj [("error", .str "Could not parse JSON: "),
               ("raw_output", .str (query_claude (build_stage_specific_survey_prompt
                 payload.surveyPurpose payload.startupAnalysis))),
               ("studyId", .str payload.studyId)], 200⟩) ∧
    (∀ parsed : Json,
      json_loads (query_claude (build_stage_specific_survey_prompt
        payload.surveyPurpose payload.startupAnalysis)) = some parsed →
      isList10 parsed = false →
      generate_survey payload query_claude =
        ⟨.obj [("error", .str "Output is not a valid list of 10 items"),
               ("raw", .str (query_claude (build_stage_specific_survey_prompt
                 payload.surveyPurpose payload.startupAnalysis))),
               ("studyId", .str payload.studyId)], 200⟩) := by
  constructor
  · intro hparse
    simp [generate_survey, h3, hparse]
  · intro parsed hparse hshape
    simp [generate_survey, h3, hparse, hshape]

/-- C6 witnessed at the raw response "not json". -/
theorem malformed_json_preserves_raw_witness :
    generate_survey ⟨"study-B", "purpose", ⟨"T", "D", "IDEATION & PLANNING", ["a", "b", "c"]⟩⟩
        (fun _ => "not json") =
      ⟨.obj [("error", .str "Could not parse JSON: "),
             ("raw_output", .str "not json"),
             ("studyId", .str "study-B")], 200⟩ :=
  (malformed_json_preserves_raw
    ⟨"study-B", "purpose", ⟨"T", "D", "IDEATION & PLANNING", ["a", "b", "c"]⟩⟩
    (fun _ => "not json") rfl).1 rfl

/-- C8: when the model response parses as a JSON list of exactly 10 items
the endpoint answers with status 200 and a body consisting of the questions
array, the request stage, burningProblems and studyId, and metadata with
stage_focus and validation_goal taken from the stage strategy. -/
theorem ten_item_success_response (payload : SurveyRequest)
    (query_claude : String → String)
    (h3 : payload.startupAnalysis.burningProblems.length = 3)
    (xs : List Json)
    (hparse : json_loads (query_claude (build_stage_specific_survey_prompt
      payload.surveyPurpose payload.startupAnalysis)) = some (.arr xs))
    (hlen : xs.length = 10) :
    generate_survey payload query_claude =
      ⟨.obj [("questions", .arr xs),
             ("stage", .str payload.startupAnalysis.stage),
             ("burningProblems", .arr (payload.startupAnalysis.burningProblems.map Json.str)),
             ("studyId", .str payload.studyId),
             ("metadata", .obj
               [("stage_focus", .str (get_stage_focus payload.startupAnalysis.stage).primary_focus),
                ("validation_goal", .str (get_stage_focus payload.startupAnalysis.stage).validation_goal)])],
       200⟩ := by
  simp [generate_survey, h3, hparse, isList10, hlen]

/-- C8 witnessed at a concrete 10-element model response. -/
theorem ten_item_success_response_witness :
    generate_survey ⟨"study-C", "Understand need", ⟨"Vapi", "Voice AI platform",
        "PROTOTYPE DEVELOPMENT", ["a", "b", "c"]⟩⟩
        (fun _ => "[1,2,3,4,5,6,7,8,9,10]") =
      ⟨.obj [("questions", .arr [.num 1, .num 2, .num 3, .num 4, .num 5,
                                 .num 6, .num 7, .num 8, .num 9, .num 10]),
             ("stage", .str "PROTOTYPE DEVELOPMENT"),
             ("burningProblems", .arr [.str "a", .str "b", .str "c"]),
             ("studyId", .str "study-C"),
             ("metadata", .obj
               [("stage_focus", .str "Solution fit and technical feasibility validation"),
                ("validation_goal", .str "Validate the proposed solution addresses the core problems effectively")])],
       200⟩ :=
  ten_item_success_response
    ⟨"study-C", "Understand need", ⟨"Vapi", "Voice AI platform",
      "PROTOTYPE DEVELOPMENT", ["a", "b", "c"]⟩⟩
    (fun _ => "[1,2,3,4,5,6,7,8,9,10]") rfl
    [.num 1, .num 2, .num 3, .num 4, .num 5, .num 6, .num 7, .num 8, .num 9, .num 10]
    rfl rfl

/-- C10: the success branch performs no field-level validation: any parsed
JSON array of exactly 10 elements — whatever the elements are — is passed
through unexamined as the `questions` field of a 200 response. -/
theorem success_branch_no_field_validation (payload : SurveyRequest)
    (query_claude : String → String)
    (h3 : payload.startupAnalysis.burningProblems.length = 3)
    (xs : List Json)
    (hparse : json_loads (query_claude (build_stage_specific_survey_prompt
      payload.surveyPurpose payload.startupAnalysis)) = some (.arr xs))
    (hlen : xs.length = 10) :
    (generate_survey payload query_claude).status_code = 200 ∧
    questionsField (generate_survey payload query_claude).content = some (.arr xs) := by
  simp [generate_survey, h3, hparse, isList10, hlen, questionsField]

/-- C10 witnessed at a 10-element response whose elements are junk: numbers,
null, an empty string, an object with empty text, and an object with an
unknown type — all passed through. -/
theorem success_branch_no_field_validation_witness :
    (generate_survey ⟨"study-D", "p", ⟨"T", "D", "IDEATION & PLANNING", ["a", "b", "c"]⟩⟩
      (fun _ => "[1, null, \"\", \x7b\"text\": \"\"\x7d, \x7b\"type\": \"weird\"\x7d, true, false, 2, 3, []]")).status_code = 200 ∧
    questionsField (generate_survey ⟨"study-D", "p", ⟨"T", "D", "IDEATION & PLANNING", ["a", "b", "c"]⟩⟩
      (fun _ => "[1, null, \"\", \x7b\"text\": \"\"\x7d, \x7b\"type\": \"weird\"\x7d, true, false, 2, 3, []]")).content =
      some (.arr [.num 1, .null, .str "", .obj [("text", .str "")],
                  .obj [("type", .str "weird")], .bool true, .bool false,
                  .num 2, .num 3, .arr []]) :=
  success_branch_no_field_validation
    ⟨"study-D", "p", ⟨"T", "D", "IDEATION & PLANNING", ["a", "b", "c"]⟩⟩
    (fun _ => "[1, null, \"\", \x7b\"text\": \"\"\x7d, \x7b\"type\": \"weird\"\x7d, true, false, 2, 3, []]")
    rfl
    [.num 1, .null, .str "", .obj [("text", .str "")],
     .obj [("type", .str "weird")], .bool true, .bool false,
     .num 2, .num 3, .arr []]
    rfl rfl

/-- Raw model response used by the C7 counterexample: a syntactically valid
10-element question array in which only 2 elements carry a non-null
burning_problem_reference. -/
def distributionCounterexampleRaw : String :=
  "[\x7b\"text\":\"q1\",\"bucket\":\"burning_problem_1\",\"type\":\"scale\",\"burning_problem_reference\":1\x7d,\x7b\"text\":\"q2\",\"bucket\":\"burning_problem_2\",\"type\":\"text\",\"burning_problem_reference\":2\x7d,\x7b\"text\":\"q3\",\"bucket\":\"guardrail:WILLINGNESS TO PAY\",\"type\":\"scale\",\"burning_problem_reference\":null\x7d,\x7b\"text\":\"q4\",\"bucket\":\"guardrail:WILLINGNESS TO PAY\",\"type\":\"scale\",\"burning_problem_reference\":null\x7d,\x7b\"text\":\"q5\",\"bucket\":\"guardrail:WILLINGNESS TO PAY\",\"type\":\"scale\",\"burning_problem_reference\":null\x7d,\x7b\"text\":\"q6\",\"bucket\":\"guardrail:WILLINGNESS TO PAY\",\"type\":\"scale\",\"burning_problem_reference\":null\x7d,\x7b\"text\":\"q7\",\"bucket\":\"guardrail:WILLINGNESS TO PAY\",\"type\":\"scale\",\"burning_problem_reference\":null\x7d,\x7b\"text\":\"q8\",\"bucket\":\"guardrail:WILLINGNESS TO PAY\",\"type\":\"scale\",\"burning_problem_reference\":null\x7d,\x7b\"text\":\"q9\",\"bucket\":\"guardrail:WILLINGNESS TO PAY\",\"type\":\"scale\",\"burning_problem_reference\":null\x7d,\x7b\"text\":\"q10\",\"bucket\":\"guardrail:WILLINGNESS TO PAY\",\"type\":\"scale\",\"burning_problem_reference\":null\x7d]"

/-- Request used by the C7 counterexample. -/
def distributionCounterexamplePayload : SurveyRequest :=
  ⟨"study-E", "p", ⟨"T", "D", "IDEATION & PLANNING", ["a", "b", "c"]⟩⟩

set_option maxRecDepth 100000 in
/-- C7 counterexample: the claim says a 10-element response in which only 2
elements carry a non-null burning_problem_reference yields a
DistributionMismatch failure carrying the observed histogram.  The code has
no such check: at this concrete input the endpoint returns the plain
success payload (status 200, body keys questions/stage/burningProblems/
studyId/metadata, no error field). -/
theorem distribution_mismatch_not_detected :
    jsonArrLen (json_loads distributionCounterexampleRaw) = 10 ∧
    jsonArrRefCount (json_loads distributionCounterexampleRaw) = 2 ∧
    (generate_survey distributionCounterexamplePayload
      (fun _ => distributionCounterexampleRaw)).status_code = 200 ∧
    jsonObjKeys (generate_survey distributionCounterexamplePayload
      (fun _ => distributionCounterexampleRaw)).content =
      ["questions", "stage", "burningProblems", "studyId", "metadata"] := by
  refine ⟨rfl, rfl, rfl, rfl⟩

/-- C7 amended: the endpoint performs no distribution validation at all —
every parsed 10-element array is answered as a success (status 200, a
questions field, no error field), whatever the burning_problem_reference
histogram of its elements. -/
theorem ten_item_list_accepted_regardless_of_distribution
    (payload : SurveyRequest) (query_claude : String → String)
    (h3 : payload.startupAnalysis.burningProblems.length = 3)
    (xs : List Json)
    (hparse : json_loads (query_claude (build_stage_specific_survey_prompt
      payload.surveyPurpose payload.startupAnalysis)) = some (.arr xs))
    (hlen : xs.length = 10) :
    (generate_survey payload query_claude).status_code = 200 ∧
    "questions" ∈ jsonObjKeys (generate_survey payload query_claude).content ∧
    "error" ∉ jsonObjKeys (generate_survey payload query_claude).content := by
  simp [generate_survey, h3, hparse, isList10, hlen, jsonObjKeys]

/-- C7 amended, witnessed at a 10-element response with only 2 non-null
burning_problem_reference entries. -/
theorem ten_item_list_accepted_regardless_of_distribution_witness :
    (generate_survey ⟨"study-F", "p", ⟨"T", "D", "IDEATION & PLANNING", ["a", "b", "c"]⟩⟩
      (fun _ => "[\x7b\"burning_problem_reference\":1\x7d,\x7b\"burning_problem_reference\":2\x7d,null,null,null,null,null,null,null,null]")).status_code = 200 ∧
    "questions" ∈ jsonObjKeys (generate_survey ⟨"study-F", "p", ⟨"T", "D", "IDEATION & PLANNING", ["a", "b", "c"]⟩⟩
      (fun _ => "[\x7b\"burning_problem_reference\":1\x7d,\x7b\"burning_problem_reference\":2\x7d,null,null,null,null,null,null,null,null]")).content ∧
    "error" ∉ jsonObjKeys (generate_survey ⟨"study-F", "p", ⟨"T", "D", "IDEATION & PLANNING", ["a", "b", "c"]⟩⟩
      (fun _ => "[\x7b\"burning_problem_reference\":1\x7d,\x7b\"burning_problem_reference\":2\x7d,null,null,null,null,null,null,null,null]")).content :=
  ten_item_list_accepted_regardless_of_distribution
    ⟨"study-F", "p", ⟨"T", "D", "IDEATION & PLANNING", ["a", "b", "c"]⟩⟩
    (fun _ => "[\x7b\"burning_problem_reference\":1\x7d,\x7b\"burning_problem_reference\":2\x7d,null,null,null,null,null,null,null,null]")
    rfl
    [.obj [("burning_problem_reference", .num 1)],
     .obj [("burning_problem_reference", .num 2)],
     .null, .null, .null, .null, .null, .null, .null, .null]
    rfl rfl
